import Mathlib

/-!
Verification of `02_update_media_metadata.py` from
google-photos-takeout-metadata-exif-json-to-synology.

Shallow embedding conventions:
* A `pathlib.Path` is modelled by `MPath`: the parent directory string, the
  stem and the suffix (extension including the leading dot, empty when the
  name has none), so that `str(path) = dir ++ "/" ++ stem ++ suffix`,
  `path.name = stem ++ suffix`, `str(path.parent / path.stem) = dir ++ "/" ++ stem`.
* The filesystem is a list of existing path strings; `Path(p).exists()` is
  list membership.
* Python string operations (`str.replace`, `split('(')[0]`, slicing
  `s[:-(k)]`) are re-implemented on `List Char` with Python semantics.
* `datetime.fromtimestamp(...).strftime(...)` (local-timezone rendering of an
  epoch second) is external library behaviour; it is modelled as a concrete
  injective function of the timestamp, since no verified claim depends on the
  rendered text, only on it being a deterministic function of the timestamp.
* EXIF containers are finite association lists from piexif tag numbers to
  values; `Image.open`/`img.save` with piexif embedding either replaces the
  file's EXIF block or fails, which is modelled by a per-file failure flag
  (`exifWriteFails`) standing for a corrupt container / unsupported encoding /
  I/O error, the exceptions the source catches at lines 159-162.
-/

namespace Takeout

/-- Python `str.replace(old, new)` on `List Char`: replaces all
non-overlapping occurrences, left to right.  Fuel-based recursion; fuel is the
length of the string, enough because each step consumes at least one
character when the pattern is non-empty. -/
def pyReplaceAux (pat rep : List Char) : Nat → List Char → List Char
  | _, [] => []
  | 0, s => s
  | fuel + 1, c :: rest =>
      if pat.isPrefixOf (c :: rest) then
        rep ++ pyReplaceAux pat rep fuel ((c :: rest).drop pat.length)
      else
        c :: pyReplaceAux pat rep fuel rest

/-- Python `s.replace(pat, rep)`.  An empty pattern only occurs in the source
as `replace(suffix, '')` with an empty suffix, where Python returns the
string unchanged, which the guard reproduces. -/
def pyReplace (s pat rep : String) : String :=
  if pat.toList.isEmpty then s
  else (pyReplaceAux pat.toList rep.toList s.toList.length s.toList).asString

/-- Python `s.split('(')[0]`: the prefix before the first `'('`. -/
def beforeParen (s : String) : String :=
  (s.toList.takeWhile (fun c => c ≠ '(')).asString

/-- Python `s[:-(k)]` for `k ≥ 1`: drop the last `k` characters (empty when
`k ≥ len(s)`). -/
def pyDropLast (s : String) (k : Nat) : String :=
  (s.toList.take (s.toList.length - k)).asString

/-- Python `s.lower()` (ASCII extensions only in this program). -/
def pyLower (s : String) : String := (s.toList.map Char.toLower).asString

/-- Python `s.upper()` (ASCII extensions only in this program). -/
def pyUpper (s : String) : String := (s.toList.map Char.toUpper).asString

/-- A `pathlib.Path`, decomposed as parent directory, stem and suffix. -/
structure MPath where
  dir : String
  stem : String
  suffix : String
  deriving DecidableEq, Repr

/-- `str(path)`. -/
def MPath.str (p : MPath) : String := p.dir ++ "/" ++ p.stem ++ p.suffix

/-- `path.name`. -/
def MPath.name (p : MPath) : String := p.stem ++ p.suffix

/-- `str(path.parent / path.stem)`. -/
def MPath.parentStem (p : MPath) : String := p.dir ++ "/" ++ p.stem

/-- `IMAGE_FORMATS` (source line 20). -/
def IMAGE_FORMATS : List String :=
  [".jpg", ".jpeg", ".png", ".heic", ".gif", ".bmp", ".tiff", ".tif", ".webp"]

/-- `VIDEO_FORMATS` (source line 21). -/
def VIDEO_FORMATS : List String :=
  [".mp4", ".mov", ".avi", ".mkv", ".m4v"]

/-- The candidate sidecar names generated before the truncation fallback:
source lines 51-73 of `get_potential_json_names` (standard cases, the
LivePhotos-iOS `.MP4` cases, the duplicate `(x)` case and the two
`-modified` cases), in order. -/
def pre_candidates (p : MPath) : List String :=
  let base := p.str
  [base ++ ".json",
   pyReplace base p.suffix "" ++ ".json"]
  ++ (if pyUpper p.suffix = ".MP4" then
        [pyReplace base p.suffix ".HEIC" ++ ".json",
         pyReplace base p.suffix ".JPG" ++ ".json",
         beforeParen p.parentStem ++ ".HEIC.json",
         beforeParen p.parentStem ++ ".JPG.json"]
      else [])
  ++ [beforeParen p.parentStem ++ p.suffix ++ ".json",
      pyReplace base "-modifié" "" ++ ".json",
      pyReplace base "-modified" "" ++ ".json"]

/-- The `i`-th truncation candidate: the full path string with `i + 1`
trailing characters removed, `.json` appended (source lines 75-79,
`full_name[:-(i+1)] + ".json"` for `i in range(8)`). -/
def trunc_candidate (p : MPath) (i : Nat) : String :=
  pyDropLast p.str (i + 1) ++ ".json"

/-- `get_potential_json_names` (source lines 49-81): the pre-truncation
candidates followed by the eight truncation candidates. -/
def get_potential_json_names (p : MPath) : List String :=
  pre_candidates p ++ (List.range 8).map (trunc_candidate p)

/-- `Path(s).exists()` against the modelled filesystem. -/
def existsFS (fs : List String) (s : String) : Bool := fs.contains s

/-- `Path(c).name` of a candidate string: the component after the last `/`. -/
def baseName (s : String) : String :=
  ((s.toList.reverse.takeWhile (fun c => c ≠ '/')).reverse).asString

/-- Result of `find_json_file`: the returned path (if any) and whether it was
produced by the step-2 tree-wide scan (in the source that branch logs a
warning and increments `stats['json_found_in_other_dir']`). -/
structure FindResult where
  result : Option String
  foundInOtherDir : Bool
  deriving DecidableEq, Repr

/-- `find_json_file` (source lines 46-98).  Step 1 probes each candidate name
in the media file's directory and returns the first that exists; step 2 scans
every `.json` file under the working root (`jsonTree`) and returns the first
whose filename equals the filename of some candidate. -/
def find_json_file (fs : List String) (jsonTree : List String) (p : MPath) :
    FindResult :=
  match (get_potential_json_names p).find? (fun c => existsFS fs c) with
  | some j => ⟨some j, false⟩
  | none =>
      match jsonTree.find?
          (fun j => ((get_potential_json_names p).map baseName).contains (baseName j)) with
      | some j => ⟨some j, true⟩
      | none => ⟨none, false⟩

/-- The statistics dictionary `self.stats` (source lines 29-35). -/
structure Stats where
  success : Nat
  warnings : Nat
  json_not_found : Nat
  ignored_with_exif : Nat
  json_found_in_other_dir : Nat
  deriving DecidableEq, Repr

/-- The processor's mutable accumulator state: `self.stats`,
`self.files_without_json`, `self.files_with_warnings`. -/
structure ProcState where
  stats : Stats
  files_without_json : List String
  files_with_warnings : List (String × String)
  deriving DecidableEq, Repr

/-- An EXIF tag value: an encoded string or a tuple of `(num, den)` rational
pairs (the GPS degree/minute/second triples). -/
inductive ExifVal where
  | str (s : String)
  | rats (l : List (Int × Int))
  deriving DecidableEq, Repr

/-- An embedded EXIF block: the `"0th"`, `"Exif"` and `"GPS"` IFDs, each an
association list from piexif tag number to value. -/
structure ExifData where
  zeroth : List (Nat × ExifVal)
  exifIFD : List (Nat × ExifVal)
  gps : List (Nat × ExifVal)
  deriving DecidableEq, Repr

/-- A parsed sidecar JSON document.  `photoTakenTimestamp = none` models
`photoTakenTime.timestamp` absent or not parseable as an integer (where
`int(json_data['photoTakenTime']['timestamp'])` raises); `latitude` and
`longitude` carry the `geoDataExif` values with Python's `.get(..., 0)`
default of `0` already applied. -/
structure Sidecar where
  photoTakenTimestamp : Option Int
  latitude : ℚ
  longitude : ℚ
  deriving DecidableEq, Repr

/-- A media file on disk: its path, filesystem access/modification times
(epoch seconds), its embedded EXIF block (`none` when the container carries
no block), an abstract identifier for its remaining bytes (pixel data), and a
flag modelling whether the piexif/PIL rewrite of this file raises (corrupt
container, unsupported encoding, I/O failure) — the exceptions caught at
source lines 159-162. -/
structure MediaFile where
  path : MPath
  atime : Int
  mtime : Int
  exif : Option ExifData
  content : Nat
  exifWriteFails : Bool
  deriving DecidableEq, Repr

/-- `datetime.fromtimestamp(ts).strftime(fmt)`: external-library local-time
rendering, modelled as a concrete injective function of the epoch second (no
claim depends on the rendered text). -/
def strftimeLocal (ts : Int) : String := "localtime:" ++ toString ts

/-- Python `int(value)` on an exact value: truncation toward zero. -/
def pyTruncInt (q : ℚ) : Int := if q < 0 then -⌊-q⌋ else ⌊q⌋

/-- `convert_to_degrees` (source lines 176-182), over exact rationals:
`d = int(value)`, `m = int((value - d) * 60)`,
`s = int(((value - d) * 60 - m) * 60)`, returned as
`((d, 1), (m, 1), (s, 1))`. -/
def convert_to_degrees (value : ℚ) : (Int × Int) × (Int × Int) × (Int × Int) :=
  let d := pyTruncInt value
  let m := pyTruncInt ((value - d) * 60)
  let s := pyTruncInt (((value - d) * 60 - m) * 60)
  ((d, 1), (m, 1), (s, 1))

/-- piexif GPS tag numbers: GPSLatitudeRef = 1, GPSLatitude = 2,
GPSLongitudeRef = 3, GPSLongitude = 4. -/
def create_gps_dict (lat lon : ℚ) : List (Nat × ExifVal) :=
  let lat_deg := convert_to_degrees |lat|
  let lon_deg := convert_to_degrees |lon|
  [(1, .str (if 0 ≤ lat then "N" else "S")),
   (2, .rats [lat_deg.1, lat_deg.2.1, lat_deg.2.2]),
   (3, .str (if 0 ≤ lon then "E" else "W")),
   (4, .rats [lon_deg.1, lon_deg.2.1, lon_deg.2.2])]

/-- The `exif_dict` literal built at source lines 130-151: empty `"0th"`, the
eight date-time tags in `"Exif"` (piexif tag numbers: DateTimeOriginal 36867,
DateTimeDigitized 36868, SubSecTime 37520, SubSecTimeOriginal 37521,
SubSecTimeDigitized 37522, OffsetTime 36880, OffsetTimeOriginal 36881,
OffsetTimeDigitized 36882) and a `"GPS"` IFD filled only when both
coordinates are non-zero. -/
def build_exif_dict (ts : Int) (lat lon : ℚ) : ExifData :=
  let date_time := strftimeLocal ts
  { zeroth := [],
    exifIFD :=
      [(36867, .str date_time), (36868, .str date_time),
       (37520, .str "00"), (37521, .str "00"), (37522, .str "00"),
       (36880, .str "+00:00"), (36881, .str "+00:00"), (36882, .str "+00:00")],
    gps := if lat ≠ 0 ∧ lon ≠ 0 then create_gps_dict lat lon else [] }

/-- Append a warning for `path` with detail `msg`:
`self.stats['warnings'] += 1; self.files_with_warnings.append(...)`. -/
def addWarning (st : ProcState) (path msg : String) : ProcState :=
  { st with
    stats := { st.stats with warnings := st.stats.warnings + 1 },
    files_with_warnings := st.files_with_warnings ++ [(path, msg)] }

/-- `update_image_exif` (source lines 117-162).  Returns the updated
accumulator state and the (possibly rewritten) file.  The timestamp parse
happens before the dry-run check; in a real run a successful
`piexif.dump` + `Image.open`/`save` replaces the file's EXIF block with the
freshly built dictionary, and a raised exception is caught, counted as a
warning and recorded. -/
def update_image_exif (dryRun : Bool) (st : ProcState) (f : MediaFile)
    (j : Sidecar) : ProcState × MediaFile :=
  if ¬ IMAGE_FORMATS.contains (pyLower f.path.suffix) then (st, f)
  else
    match j.photoTakenTimestamp with
    | none => (addWarning st f.path.str "timestamp missing or invalid", f)
    | some ts =>
        if dryRun then (st, f)
        else if f.exifWriteFails then
          (addWarning st f.path.str "exif write error", f)
        else
          (st, { f with exif := some (build_exif_dict ts j.latitude j.longitude) })

/-- `update_file_dates` (source lines 100-115).  `now` is the wall-clock time
`Path.touch` stamps between the two `os.utime(file, (timestamp, timestamp))`
calls.  In dry-run mode nothing is mutated. -/
def update_file_dates (dryRun : Bool) (f : MediaFile) (timestamp now : Int) :
    MediaFile :=
  if dryRun then f
  else
    let f1 := { f with atime := timestamp, mtime := timestamp }
    let f2 := { f1 with atime := now, mtime := now }
    { f2 with atime := timestamp, mtime := timestamp }

/-- `process_media_file` (source lines 184-227), from the point where the
locator's result has been read and parsed: `loc = none` models
`find_json_file` returning `None`; `loc = some j` models a located sidecar
whose JSON document parsed to `j`.  Mirrors the source: EXIF update for
non-HEIC images (its exceptions are caught inside `update_image_exif`), then
the timestamp parse at line 216 (whose failure is caught by the outer
`except` at lines 224-227), then `update_file_dates` and the success count. -/
def process_media_file (dryRun : Bool) (now : Int) (st : ProcState)
    (f : MediaFile) (loc : Option Sidecar) : ProcState × MediaFile :=
  match loc with
  | none =>
      ({ st with
          stats := { st.stats with json_not_found := st.stats.json_not_found + 1 },
          files_without_json := st.files_without_json ++ [f.path.str] }, f)
  | some j =>
      let s := pyLower f.path.suffix
      let r :=
        if IMAGE_FORMATS.contains s ∧ s ≠ ".heic" then
          update_image_exif dryRun st f j
        else (st, f)
      match j.photoTakenTimestamp with
      | none => (addWarning r.1 r.2.path.str "timestamp missing or invalid", r.2)
      | some ts =>
          let f2 := update_file_dates dryRun r.2 ts now
          ({ r.1 with stats := { r.1.stats with success := r.1.stats.success + 1 } }, f2)

/-- An empty accumulator, as `MediaProcessor.__init__` builds it. -/
def exState : ProcState := ⟨⟨0, 0, 0, 0, 0⟩, [], []⟩

/-- A JPEG file carrying a pre-existing EXIF tag (272 = Model). -/
def exJpg : MediaFile :=
  ⟨⟨"d", "img", ".jpg"⟩, 0, 0, some ⟨[(272, .str "NikonZ9")], [], []⟩, 7, false⟩

/-- The same JPEG, but its EXIF rewrite raises (corrupt container). -/
def exJpgFail : MediaFile := { exJpg with exifWriteFails := true }

/-- A well-formed sidecar without GPS data. -/
def exGood : Sidecar := ⟨some 1700000000, 0, 0⟩

/-- A malformed sidecar: `photoTakenTime.timestamp` absent. -/
def exBad : Sidecar := ⟨none, 0, 0⟩

/-- `find?` over a mapped `range`: the first index whose image satisfies the
predicate wins. -/
theorem find?_map_range {α : Type} (f : Nat → α) (p : α → Bool) :
    ∀ n i, i < n → (∀ j, j < i → p (f j) = false) → p (f i) = true →
      ((List.range n).map f).find? p = some (f i) := by
  intro n
  induction n with
  | zero => intro i hi _ _; exact absurd hi (Nat.not_lt_zero i)
  | succ n ih =>
      intro i hi hj hp
      rw [List.range_succ, List.map_append, List.find?_append]
      rcases Nat.lt_succ_iff_lt_or_eq.mp hi with h | h
      · rw [ih i h hj hp]; rfl
      · subst h
        have hnone : ((List.range i).map f).find? p = none := by
          rw [List.find?_eq_none]
          intro x hx
          simp only [List.mem_map, List.mem_range] at hx
          obtain ⟨j, hji, rfl⟩ := hx
          simp [hj j hji]
        rw [hnone]
        simp [List.find?, hp]

/-- Claim C1 (amended): when every pre-truncation candidate is absent and the
truncation fallback applies, the candidate with the FEWEST trailing
characters removed is tried first and returned: the source loop runs
`i in range(8)` removing `i + 1` characters, so fewer-removed variants
precede more-removed ones, the opposite order of the one claimed. -/
theorem claim1_truncation_order_amended (fs jsonTree : List String) (p : MPath) (i : Nat)
    (hpre : ∀ c ∈ pre_candidates p, existsFS fs c = false)
    (hi : i < 8)
    (hlt : ∀ j, j < i → existsFS fs (trunc_candidate p j) = false)
    (hex : existsFS fs (trunc_candidate p i) = true) :
    find_json_file fs jsonTree p = ⟨some (trunc_candidate p i), false⟩ := by
  have hprenone : (pre_candidates p).find? (fun c => existsFS fs c) = none := by
    rw [List.find?_eq_none]
    intro x hx
    simp [hpre x hx]
  have htr : ((List.range 8).map (trunc_candidate p)).find? (fun c => existsFS fs c)
      = some (trunc_candidate p i) :=
    find?_map_range (trunc_candidate p) (fun c => existsFS fs c) 8 i hi hlt hex
  unfold find_json_file
  rw [get_potential_json_names, List.find?_append, hprenone, htr]
  rfl

/-- Claim C1, as stated, is false: for `d/ab.jpg` both the 1-character
truncation sidecar `d/ab.jp.json` and the 2-character truncation sidecar
`d/ab.j.json` exist, and `find_json_file` returns the variant with the
FEWEST characters removed, not the one with the most. -/
theorem claim1_counterexample :
    find_json_file ["d/ab.jp.json", "d/ab.j.json"] [] ⟨"d", "ab", ".jpg"⟩
        = ⟨some "d/ab.jp.json", false⟩ ∧
      trunc_candidate ⟨"d", "ab", ".jpg"⟩ 0 = "d/ab.jp.json" ∧
      trunc_candidate ⟨"d", "ab", ".jpg"⟩ 1 = "d/ab.j.json" ∧
      ("d/ab.j.json" : String) ≠ "d/ab.jp.json" := by
  refine ⟨by decide, by decide, by decide, by decide⟩

/-- Witness for claim C1 (amended) at a concrete input: with only the
2-character truncation sidecar on disk, it is located. -/
theorem claim1_truncation_order_amended_witness :
    find_json_file ["d/ab.j.json"] [] ⟨"d", "ab", ".jpg"⟩
      = ⟨some (trunc_candidate ⟨"d", "ab", ".jpg"⟩ 1), false⟩ :=
  claim1_truncation_order_amended ["d/ab.j.json"] [] ⟨"d", "ab", ".jpg"⟩ 1
    (by decide) (by decide) (by decide) (by decide)

/-- Claim C8 (confirmed): when the exact co-located sidecar
`<full filename>.json` exists, `find_json_file` returns it from the very
first same-directory candidate, and the tree-wide fallback scan is not
executed (the result is not marked found-in-other-directory, so
`stats['json_found_in_other_dir']` is untouched). -/
theorem claim8_exact_sidecar (fs jsonTree : List String) (p : MPath)
    (hex : existsFS fs (p.str ++ ".json") = true) :
    find_json_file fs jsonTree p = ⟨some (p.str ++ ".json"), false⟩ := by
  unfold find_json_file get_potential_json_names pre_candidates
  simp only [List.cons_append, List.append_assoc]
  rw [List.find?_cons_of_pos _ hex]

/-- Witness for claim C8 at a concrete input. -/
theorem claim8_exact_sidecar_witness :
    find_json_file ["d/IMG_01.JPG.json"] [] ⟨"d", "IMG_01", ".JPG"⟩
      = ⟨some "d/IMG_01.JPG.json", false⟩ :=
  claim8_exact_sidecar ["d/IMG_01.JPG.json"] [] ⟨"d", "IMG_01", ".JPG"⟩ (by decide)

/-- Claim C9 (confirmed): for a live-photo video (suffix uppercasing to
`.MP4`) whose video-named sidecars (`<full name>.json` and
`<name without extension>.json`) are absent, the locator returns the
co-located still-image sidecar: the one with the extension replaced by
`.HEIC` when it exists, else the `.JPG` one when that exists. -/
theorem claim9_livephoto_still (fs jsonTree : List String) (p : MPath)
    (hmp4 : pyUpper p.suffix = ".MP4")
    (h1 : existsFS fs (p.str ++ ".json") = false)
    (h2 : existsFS fs (pyReplace p.str p.suffix "" ++ ".json") = false) :
    (existsFS fs (pyReplace p.str p.suffix ".HEIC" ++ ".json") = true →
      find_json_file fs jsonTree p
        = ⟨some (pyReplace p.str p.suffix ".HEIC" ++ ".json"), false⟩) ∧
    (existsFS fs (pyReplace p.str p.suffix ".HEIC" ++ ".json") = false →
      existsFS fs (pyReplace p.str p.suffix ".JPG" ++ ".json") = true →
      find_json_file fs jsonTree p
        = ⟨some (pyReplace p.str p.suffix ".JPG" ++ ".json"), false⟩) := by
  have hlist : get_potential_json_names p
      = (p.str ++ ".json") :: (pyReplace p.str p.suffix "" ++ ".json")
        :: (pyReplace p.str p.suffix ".HEIC" ++ ".json")
        :: (pyReplace p.str p.suffix ".JPG" ++ ".json")
        :: (beforeParen p.parentStem ++ ".HEIC.json")
        :: (beforeParen p.parentStem ++ ".JPG.json")
        :: ([beforeParen p.parentStem ++ p.suffix ++ ".json",
             pyReplace p.str "-modifié" "" ++ ".json",
             pyReplace p.str "-modified" "" ++ ".json"]
            ++ (List.range 8).map (trunc_candidate p)) := by
    unfold get_potential_json_names pre_candidates
    simp [hmp4, List.append_assoc]
  constructor
  · intro hheic
    unfold find_json_file
    rw [hlist, List.find?_cons_of_neg _ (by simp [h1]),
      List.find?_cons_of_neg _ (by simp [h2]),
      List.find?_cons_of_pos _ hheic]
  · intro hno hjpg
    unfold find_json_file
    rw [hlist, List.find?_cons_of_neg _ (by simp [h1]),
      List.find?_cons_of_neg _ (by simp [h2]),
      List.find?_cons_of_neg _ (by simp [hno]),
      List.find?_cons_of_pos _ hjpg]

/-- Witness for claim C9 at a concrete input: the still sidecar
`d/IMG_1.HEIC.json` is located for the live-photo video `d/IMG_1.mp4`. -/
theorem claim9_livephoto_still_witness :
    find_json_file ["d/IMG_1.HEIC.json"] [] ⟨"d", "IMG_1", ".mp4"⟩
      = ⟨some (pyReplace (MPath.str ⟨"d", "IMG_1", ".mp4"⟩) ".mp4" ".HEIC" ++ ".json"), false⟩ :=
  (claim9_livephoto_still ["d/IMG_1.HEIC.json"] [] ⟨"d", "IMG_1", ".mp4"⟩
    (by decide) (by decide) (by decide)).1 (by decide)

/-- In dry-run mode `update_image_exif` never touches the file; when the real
EXIF write does not raise, dry and real runs leave the accumulator state
equal, and the real run preserves the file's path. -/
theorem update_image_exif_dry (st : ProcState) (f : MediaFile) (j : Sidecar)
    (h : f.exifWriteFails = false) :
    (update_image_exif true st f j).1 = (update_image_exif false st f j).1 ∧
    (update_image_exif true st f j).2 = f ∧
    (update_image_exif false st f j).2.path = f.path := by
  unfold update_image_exif
  split
  · exact ⟨rfl, rfl, rfl⟩
  · cases j.photoTakenTimestamp with
    | none => exact ⟨rfl, rfl, rfl⟩
    | some ts => simp [h]

/-- Claim C2 (amended): for an entry whose real-run EXIF write does not
raise, dry-run and real-run processing produce identical accumulator states
(statistics counters and warning/not-found lists), and the dry run leaves
the file completely unchanged (timestamps, EXIF block and content).  The
amendment: when the real EXIF write raises, the real run counts an extra
WarningError that the dry run does not reproduce, because the dry run skips
the write before the failure point (see the counterexample). -/
theorem claim2_dry_run_equiv (now : Int) (st : ProcState) (f : MediaFile)
    (loc : Option Sidecar) (h : f.exifWriteFails = false) :
    (process_media_file true now st f loc).1
        = (process_media_file false now st f loc).1 ∧
    (process_media_file true now st f loc).2 = f := by
  cases loc with
  | none => exact ⟨rfl, rfl⟩
  | some j =>
      obtain ⟨hst, hdf, hpath⟩ := update_image_exif_dry st f j h
      unfold process_media_file
      by_cases hel : pyLower f.path.suffix ∈ IMAGE_FORMATS
          ∧ pyLower f.path.suffix ≠ ".heic"
      · cases hts : j.photoTakenTimestamp with
        | none => simp [hts, hel.1, hel.2, hst, hdf, hpath]
        | some ts => simp [hts, hel.1, hel.2, hst, hdf, update_file_dates]
      · cases hts : j.photoTakenTimestamp with
        | none => simp [hts, hel]
        | some ts => simp [hts, hel, update_file_dates]

/-- Claim C2, as stated, is false: on a JPEG whose EXIF rewrite raises, the
real run records a WarningError that the dry run does not, so the
statistics counters differ between the two modes on the same input. -/
theorem claim2_counterexample :
    (process_media_file true 5 exState exJpgFail (some exGood)).1.stats
      ≠ (process_media_file false 5 exState exJpgFail (some exGood)).1.stats := by
  decide

/-- Witness for claim C2 (amended) at a concrete input. -/
theorem claim2_dry_run_equiv_witness :
    (process_media_file true 5 exState exJpg (some exGood)).1
        = (process_media_file false 5 exState exJpg (some exGood)).1 ∧
    (process_media_file true 5 exState exJpg (some exGood)).2 = exJpg :=
  claim2_dry_run_equiv 5 exState exJpg (some exGood) (by decide)

/-- Claim C3 (amended): the embedded-metadata update does not preserve
untouched tags: it replaces the file's entire EXIF block with a freshly
built dictionary containing only the date-time, sub-second and UTC-offset
tags (and, when both coordinates are non-zero, the four GPS tags); every
pre-existing tag not among those written is discarded.  Timestamps and pixel
content of the file are not modified by this step. -/
theorem claim3_exif_block_replaced (st : ProcState) (f : MediaFile)
    (j : Sidecar) (ts : Int)
    (hel : pyLower f.path.suffix ∈ IMAGE_FORMATS)
    (hts : j.photoTakenTimestamp = some ts)
    (hok : f.exifWriteFails = false) :
    (update_image_exif false st f j).2.exif
        = some (build_exif_dict ts j.latitude j.longitude) ∧
    (build_exif_dict ts j.latitude j.longitude).zeroth = [] ∧
    (build_exif_dict ts j.latitude j.longitude).exifIFD.map Prod.fst
        = [36867, 36868, 37520, 37521, 37522, 36880, 36881, 36882] ∧
    (build_exif_dict ts j.latitude j.longitude).gps.map Prod.fst
        = (if j.latitude ≠ 0 ∧ j.longitude ≠ 0 then [1, 2, 3, 4] else []) ∧
    (update_image_exif false st f j).2.atime = f.atime ∧
    (update_image_exif false st f j).2.mtime = f.mtime ∧
    (update_image_exif false st f j).2.content = f.content := by
  have hfile : (update_image_exif false st f j).2
      = { f with exif := some (build_exif_dict ts j.latitude j.longitude) } := by
    unfold update_image_exif
    rw [hts]
    simp [hel, hok]
  refine ⟨by rw [hfile], rfl, by simp [build_exif_dict], ?_,
    by rw [hfile], by rw [hfile], by rw [hfile]⟩
  by_cases hg : j.latitude ≠ 0 ∧ j.longitude ≠ 0
  · simp [build_exif_dict, create_gps_dict, hg]
  · simp [build_exif_dict, hg]

/-- Claim C3, as stated, is false: a JPEG carrying the pre-existing tag 272
(camera model) in its `"0th"` IFD loses that tag when the update rewrites
the file, because the update builds the EXIF block from scratch. -/
theorem claim3_counterexample :
    exJpg.exif = some ⟨[(272, ExifVal.str "NikonZ9")], [], []⟩ ∧
    (update_image_exif false exState exJpg exGood).2.exif
        = some (build_exif_dict 1700000000 0 0) ∧
    (build_exif_dict 1700000000 0 0).zeroth.lookup 272 = none := by
  refine ⟨by decide, by decide, by decide⟩

/-- Witness for claim C3 (amended) at a concrete input. -/
theorem claim3_exif_block_replaced_witness :
    (update_image_exif false exState exJpg exGood).2.exif
      = some (build_exif_dict 1700000000 0 0) :=
  (claim3_exif_block_replaced exState exJpg exGood 1700000000
    (by decide) (by decide) (by decide)).1

/-- Claim C4 (amended): processing an entry with a located sidecar does not
always record exactly one outcome.  Exact counting law: success is counted
iff the timestamp parses; the warning counter additionally grows by 2 for an
EXIF-eligible image with a malformed sidecar (the parse failure is counted
once inside `update_image_exif` and once by the outer handler), by 1 for a
non-eligible entry with a malformed sidecar, and by 1 — alongside the
success count — when the EXIF write of an eligible image raises. -/
theorem claim4_outcome_counts (now : Int) (st : ProcState) (f : MediaFile)
    (j : Sidecar) :
    (process_media_file false now st f (some j)).1.stats.success
        = st.stats.success + (if j.photoTakenTimestamp = none then 0 else 1) ∧
    (process_media_file false now st f (some j)).1.stats.warnings
        = st.stats.warnings +
          (if j.photoTakenTimestamp = none then
            (if pyLower f.path.suffix ∈ IMAGE_FORMATS
                ∧ pyLower f.path.suffix ≠ ".heic" then 2 else 1)
           else
            (if (pyLower f.path.suffix ∈ IMAGE_FORMATS
                ∧ pyLower f.path.suffix ≠ ".heic") ∧ f.exifWriteFails = true then 1
             else 0)) ∧
    (process_media_file false now st f (some j)).1.stats.json_not_found
        = st.stats.json_not_found := by
  unfold process_media_file
  by_cases hel : pyLower f.path.suffix ∈ IMAGE_FORMATS
      ∧ pyLower f.path.suffix ≠ ".heic"
  · cases hts : j.photoTakenTimestamp with
    | none =>
        refine ⟨?_, ?_, ?_⟩ <;>
          simp [hts, hel.1, hel.2, update_image_exif, addWarning]
    | some ts =>
        cases hfl : f.exifWriteFails with
        | false =>
            refine ⟨?_, ?_, ?_⟩ <;>
              simp [hts, hel.1, hel.2, hfl, update_image_exif, update_file_dates,
                addWarning]
        | true =>
            refine ⟨?_, ?_, ?_⟩ <;>
              simp [hts, hel.1, hel.2, hfl, update_image_exif, update_file_dates,
                addWarning]
  · cases hts : j.photoTakenTimestamp with
    | none =>
        refine ⟨?_, ?_, ?_⟩ <;> simp [hts, hel, addWarning]
    | some ts =>
        refine ⟨?_, ?_, ?_⟩ <;> simp [hts, hel, update_file_dates]

/-- Claim C4, as stated, is false: an EXIF-write failure makes one entry
count under both WarningError and Success, and a malformed sidecar on an
EXIF-eligible image counts WarningError twice. -/
theorem claim4_counterexample :
    (process_media_file false 5 exState exJpgFail (some exGood)).1.stats.warnings = 1 ∧
    (process_media_file false 5 exState exJpgFail (some exGood)).1.stats.success = 1 ∧
    (process_media_file false 5 exState exJpg (some exBad)).1.stats.warnings = 2 := by
  refine ⟨by decide, by decide, by decide⟩

/-- Witness for claim C4 (amended) at a concrete input. -/
theorem claim4_outcome_counts_witness :
    (process_media_file false 5 exState exJpg (some exBad)).1.stats.success
      = exState.stats.success + (if exBad.photoTakenTimestamp = none then 0 else 1) :=
  (claim4_outcome_counts 5 exState exJpg exBad).1

/-- Claim C5 (confirmed): for a valid sidecar timestamp, a raised EXIF write
is caught inside `update_image_exif`, counted as one WarningError with its
detail recorded, and the filesystem-date step still runs: the file ends with
access and modification times equal to the capture epoch. -/
theorem claim5_exif_failure_isolated (now : Int) (st : ProcState)
    (f : MediaFile) (j : Sidecar) (ts : Int)
    (hel : pyLower f.path.suffix ∈ IMAGE_FORMATS
        ∧ pyLower f.path.suffix ≠ ".heic")
    (hts : j.photoTakenTimestamp = some ts)
    (hfl : f.exifWriteFails = true) :
    (process_media_file false now st f (some j)).1.stats.warnings
        = st.stats.warnings + 1 ∧
    (process_media_file false now st f (some j)).1.files_with_warnings
        = st.files_with_warnings ++ [(f.path.str, "exif write error")] ∧
    (process_media_file false now st f (some j)).1.stats.success
        = st.stats.success + 1 ∧
    (process_media_file false now st f (some j)).2.atime = ts ∧
    (process_media_file false now st f (some j)).2.mtime = ts := by
  unfold process_media_file
  refine ⟨?_, ?_, ?_, ?_, ?_⟩ <;>
    simp [hts, hel.1, hel.2, hfl, update_image_exif, update_file_dates,
      addWarning]

/-- Witness for claim C5 at a concrete input. -/
theorem claim5_exif_failure_isolated_witness :
    (process_media_file false 5 exState exJpgFail (some exGood)).1.stats.warnings
        = exState.stats.warnings + 1 ∧
    (process_media_file false 5 exState exJpgFail (some exGood)).1.files_with_warnings
        = exState.files_with_warnings ++ [(exJpgFail.path.str, "exif write error")] ∧
    (process_media_file false 5 exState exJpgFail (some exGood)).1.stats.success
        = exState.stats.success + 1 ∧
    (process_media_file false 5 exState exJpgFail (some exGood)).2.atime = 1700000000 ∧
    (process_media_file false 5 exState exJpgFail (some exGood)).2.mtime = 1700000000 :=
  claim5_exif_failure_isolated 5 exState exJpgFail exGood 1700000000
    (by decide) (by decide) (by decide)

/-- Claim C6 (confirmed): a malformed sidecar (timestamp absent or not an
integer) leaves the media file entirely unchanged — EXIF block, timestamps
and content — counts no success, and strictly increases the warning
counter, in dry-run and real mode alike. -/
theorem claim6_malformed_no_mutation (dryRun : Bool) (now : Int)
    (st : ProcState) (f : MediaFile) (j : Sidecar)
    (hts : j.photoTakenTimestamp = none) :
    (process_media_file dryRun now st f (some j)).2 = f ∧
    (process_media_file dryRun now st f (some j)).1.stats.success
        = st.stats.success ∧
    st.stats.warnings
        < (process_media_file dryRun now st f (some j)).1.stats.warnings := by
  unfold process_media_file
  by_cases hel : pyLower f.path.suffix ∈ IMAGE_FORMATS
      ∧ pyLower f.path.suffix ≠ ".heic"
  · refine ⟨?_, ?_, ?_⟩ <;>
      simp [hts, hel.1, hel.2, update_image_exif, addWarning]
    omega
  · refine ⟨?_, ?_, ?_⟩ <;> simp [hts, hel, addWarning]

/-- Witness for claim C6 at a concrete input. -/
theorem claim6_malformed_no_mutation_witness :
    (process_media_file false 5 exState exJpg (some exBad)).2 = exJpg ∧
    (process_media_file false 5 exState exJpg (some exBad)).1.stats.success
        = exState.stats.success ∧
    exState.stats.warnings
        < (process_media_file false 5 exState exJpg (some exBad)).1.stats.warnings :=
  claim6_malformed_no_mutation false 5 exState exJpg exBad (by decide)

/-- Claim C7 (confirmed): with a valid sidecar timestamp, a real (non-dry)
run ends with the file's access and modification times both equal to that
exact epoch second, whatever wall-clock time the intermediate
`touch` stamps: the final `os.utime` overwrites it. -/
theorem claim7_filesystem_dates (now : Int) (st : ProcState) (f : MediaFile)
    (j : Sidecar) (ts : Int) (hts : j.photoTakenTimestamp = some ts) :
    (update_file_dates false f ts now).atime = ts ∧
    (update_file_dates false f ts now).mtime = ts ∧
    (process_media_file false now st f (some j)).2.atime = ts ∧
    (process_media_file false now st f (some j)).2.mtime = ts := by
  refine ⟨rfl, rfl, ?_, ?_⟩ <;>
  · unfold process_media_file
    by_cases hel : pyLower f.path.suffix ∈ IMAGE_FORMATS
        ∧ pyLower f.path.suffix ≠ ".heic"
    · cases hfl : f.exifWriteFails with
      | false => simp [hts, hel.1, hel.2, hfl, update_image_exif, update_file_dates]
      | true => simp [hts, hel.1, hel.2, hfl, update_image_exif, update_file_dates]
    · simp [hts, hel, update_file_dates]

/-- Witness for claim C7 at a concrete input: `photoTakenTime.timestamp`
1700000000 becomes the final access and modification time. -/
theorem claim7_filesystem_dates_witness :
    (update_file_dates false exJpg 1700000000 5).atime = 1700000000 ∧
    (update_file_dates false exJpg 1700000000 5).mtime = 1700000000 ∧
    (process_media_file false 5 exState exJpg (some exGood)).2.atime = 1700000000 ∧
    (process_media_file false 5 exState exJpg (some exGood)).2.mtime = 1700000000 :=
  claim7_filesystem_dates 5 exState exJpg exGood 1700000000 (by decide)

/-- Claim C10 (confirmed): on non-negative exact coordinate values the
conversion truncates — `int` on a non-negative value is the floor — giving
`d = ⌊v⌋`, `m = ⌊(v - d) * 60⌋`, `s = ⌊((v - d) * 60 - m) * 60⌋`, each over
denominator 1; in particular 48.8584 yields degrees 48, minutes 51,
seconds 30 (not 51/31 as rounding would). -/
theorem claim10_convert_truncates (v : ℚ) (hv : 0 ≤ v) :
    convert_to_degrees v
        = ((⌊v⌋, 1), (⌊(v - ⌊v⌋) * 60⌋, 1),
           (⌊((v - ⌊v⌋) * 60 - ⌊(v - ⌊v⌋) * 60⌋) * 60⌋, 1)) ∧
    convert_to_degrees (48.8584 : ℚ) = ((48, 1), (51, 1), (30, 1)) := by
  constructor
  · have h1 : pyTruncInt v = ⌊v⌋ := by
      unfold pyTruncInt
      rw [if_neg (not_lt.mpr hv)]
    have hm0 : (0 : ℚ) ≤ (v - ⌊v⌋) * 60 := by
      have := Int.fract_nonneg v
      rw [Int.fract] at this
      positivity
    have h2 : pyTruncInt ((v - ⌊v⌋) * 60) = ⌊(v - ⌊v⌋) * 60⌋ := by
      unfold pyTruncInt
      rw [if_neg (not_lt.mpr hm0)]
    have hs0 : (0 : ℚ) ≤ ((v - ⌊v⌋) * 60 - ⌊(v - ⌊v⌋) * 60⌋) * 60 := by
      have := Int.fract_nonneg ((v - ⌊v⌋) * 60)
      rw [Int.fract] at this
      positivity
    have h3 : pyTruncInt (((v - ⌊v⌋) * 60 - ⌊(v - ⌊v⌋) * 60⌋) * 60)
        = ⌊((v - ⌊v⌋) * 60 - ⌊(v - ⌊v⌋) * 60⌋) * 60⌋ := by
      unfold pyTruncInt
      rw [if_neg (not_lt.mpr hs0)]
    simp only [convert_to_degrees]
    rw [h1, h2, h3]
  · norm_num [convert_to_degrees, pyTruncInt]

/-- Witness for claim C10 at the concrete input 48.8584. -/
theorem claim10_convert_truncates_witness :
    convert_to_degrees (48.8584 : ℚ) = ((48, 1), (51, 1), (30, 1)) :=
  (claim10_convert_truncates (48.8584 : ℚ) (by norm_num)).2

end Takeout
